import Mathlib

/-!
Verification of the CSS art generator (purecss-pink generator prototype).

The TypeScript sources are shallowly embedded:
* JS strings are embedded as lists of UTF-16 code units (`List ℕ`);
* JS numbers are embedded as exact rationals (`ℚ`), except inside the
  seeded random number generator, where the 64-bit float rounding of the
  products actually changes the computed integers: there the rounding of
  an exact natural number to 53 significant bits (round to nearest, ties
  to even) is modelled explicitly by `fl53`;
* stateful code (the generation counter, the rate limiter) is embedded by
  explicit state passing;
* `Math.random()` (used by `generateHairStyles` for the front-tendril
  opacity) is an external entropy source and is threaded through the
  renderer as an explicit stream argument `rand`.
-/

/-- JS `ToInt32`: reduce an integer to the signed 32-bit range. -/
def toInt32 (x : ℤ) : ℤ := (x + 2 ^ 31) % 2 ^ 32 - 2 ^ 31

/-- Embeds `SeededRandom.hashString` / `createFingerprint` / `secureHash` hash core
(randomness.ts lines 20-28): `hash = ((hash << 5) - hash) + char` folded to a
32-bit integer each step, i.e. `hash ← ToInt32 (31 * hash + char)`, and
`Math.abs` at the end.  The input is the list of UTF-16 code units. -/
def hashStringJS (units : List ℕ) : ℕ :=
  (units.foldl (fun h c => toInt32 (31 * h + (c : ℤ))) 0).natAbs

/-- Round a natural number to the nearest multiple of `2 ^ k`, ties to even
(the rounding IEEE-754 binary64 performs on the exceeding bits). -/
def rne (n k : ℕ) : ℕ :=
  if n % 2 ^ k < 2 ^ (k - 1) then n / 2 ^ k * 2 ^ k
  else if 2 ^ (k - 1) < n % 2 ^ k then (n / 2 ^ k + 1) * 2 ^ k
  else if n / 2 ^ k % 2 = 0 then n / 2 ^ k * 2 ^ k
  else (n / 2 ^ k + 1) * 2 ^ k

/-- Round a natural number to 53 significant bits (round to nearest, ties to
even): the value a JS number (IEEE-754 binary64) holds after an arithmetic
operation whose exact result is `n`. -/
def fl53 (n : ℕ) : ℕ := if n < 2 ^ 53 then n else rne n (n.size - 53)

/-- Embeds `SeededRandom.next` state update (randomness.ts line 35):
`this.seed = (this.seed * 1103515245 + 12345) & 0x7fffffff`.  The product and
the sum are binary64 operations, hence the two `fl53` roundings; `& 0x7fffffff`
keeps the low 31 bits of the (integer) result. -/
def nextSeed (s : ℕ) : ℕ := fl53 (fl53 (s * 1103515245) + 12345) % 2 ^ 31

/-- Value returned by `SeededRandom.next` from internal state `s`
(randomness.ts line 36): the updated seed divided by `0x7fffffff`.  The
quotient is taken exactly; the binary64 quotient agrees on the properties
proved here, since the numerator stays at most `0x7ffffffd` and rounding a
quotient that far below 1 (gap about `4.7e-10`, half-ulp about `5.6e-17`)
cannot reach 1. -/
def nextVal (s : ℕ) : ℚ := (nextSeed s : ℚ) / (2 ^ 31 - 1)

/-- Embeds `SeededRandom.nextInt` (randomness.ts lines 42-44):
`Math.floor(this.next() * (max - min + 1)) + min`. -/
def nextIntVal (s : ℕ) (lo hi : ℤ) : ℤ :=
  ⌊nextVal s * ((hi : ℚ) - (lo : ℚ) + 1)⌋ + lo

/-- Embeds `SeededRandom.nextFloat` (randomness.ts lines 49-51). -/
def nextFloatVal (s : ℕ) (lo hi : ℚ) : ℚ := nextVal s * (hi - lo) + lo

/-- One `next()` call as a state transformer: returned value and new state. -/
def nextS (s : ℕ) : ℚ × ℕ := ((nextSeed s : ℚ) / (2 ^ 31 - 1), nextSeed s)

/-- The `SeededRandom` class: its only instance field is the current seed. -/
structure SeededRandom where
  seed : ℕ
deriving Repr, DecidableEq

/-- Embeds `new SeededRandom(seed)` for a string seed (randomness.ts lines 11-15). -/
def mkSeededRandom (units : List ℕ) : SeededRandom := ⟨hashStringJS units⟩

/-- The list of the first `n` values `next()` produces from state `s`. -/
def streamAux : ℕ → ℕ → List ℚ
  | _, 0 => []
  | s, n + 1 => (nextS s).1 :: streamAux (nextS s).2 n

/-- The first `n` values of a `SeededRandom` instance. -/
def stream (r : SeededRandom) (n : ℕ) : List ℚ := streamAux r.seed n

/-- Loop body list of `generateRandomValues` (randomness.ts lines 95-104):
`count` draws of `rng.next() * 100`. -/
def genValsAux : ℕ → ℕ → List ℚ
  | _, 0 => []
  | s, n + 1 => (nextS s).1 * 100 :: genValsAux (nextS s).2 n

/-- Embeds `generateRandomValues(seed, count)` (randomness.ts lines 95-104). -/
def generateRandomValues (units : List ℕ) (count : ℕ) : List ℚ :=
  genValsAux (hashStringJS units) count

/-- Embeds `mapRange` (randomness.ts lines 109-117). -/
def mapRange (value inMin inMax outMin outMax : ℚ) : ℚ :=
  (value - inMin) * (outMax - outMin) / (inMax - inMin) + outMin

/-! ### Bounds on the seeded value stream -/

lemma fl53_eq_of_lt {n : ℕ} (h : n < 2 ^ 53) : fl53 n = n := by
  unfold fl53; rw [if_pos h]

lemma rne_ge (n k : ℕ) : n / 2 ^ k * 2 ^ k ≤ rne n k := by
  unfold rne
  split_ifs <;> nlinarith [Nat.pos_pow_of_pos k (show 0 < 2 by omega)]

lemma fl53_ge {n : ℕ} (h : 2 ^ 53 ≤ n) : 2 ^ 53 ≤ fl53 n := by
  unfold fl53
  rw [if_neg (not_lt.mpr h)]
  have hsz : 53 < n.size := Nat.lt_size.mpr h
  set k := n.size - 53 with hk
  have hk1 : 1 ≤ k := by omega
  have hlow : 2 ^ (n.size - 1) ≤ n := Nat.lt_size.mp (by omega)
  have hq : 2 ^ 52 ≤ n / 2 ^ k := by
    rw [Nat.le_div_iff_mul_le (Nat.pos_pow_of_pos k (by omega))]
    calc 2 ^ 52 * 2 ^ k = 2 ^ (52 + k) := by rw [pow_add]
    _ ≤ 2 ^ (n.size - 1) := by
          apply Nat.pow_le_pow_right (by omega); omega
    _ ≤ n := hlow
  calc (2 : ℕ) ^ 53 = 2 ^ 52 * 2 ^ 1 := by norm_num
  _ ≤ (n / 2 ^ k) * 2 ^ k := by
        apply Nat.mul_le_mul hq (Nat.pow_le_pow_right (by omega) hk1)
  _ ≤ rne n k := rne_ge n k

lemma fl53_even {n : ℕ} (h : 2 ^ 53 ≤ n) : 2 ∣ fl53 n := by
  unfold fl53
  rw [if_neg (not_lt.mpr h)]
  have hsz : 53 < n.size := Nat.lt_size.mpr h
  have hk1 : 1 ≤ n.size - 53 := by omega
  have h2 : (2 : ℕ) ∣ 2 ^ (n.size - 53) := dvd_pow_self 2 (by omega)
  unfold rne
  split_ifs <;> exact Dvd.dvd.mul_left h2 _

lemma nextSeed_lt (s : ℕ) : nextSeed s < 2 ^ 31 :=
  Nat.mod_lt _ (by norm_num)

/-- The masked LCG value never hits `0x7fffffff` itself: when the binary64
product is exact the unique residue that would be needed is out of the exact
range, and when rounding occurs the result is even. -/
lemma nextSeed_ne (s : ℕ) : nextSeed s ≠ 2 ^ 31 - 1 := by
  unfold nextSeed
  by_cases hc : fl53 (s * 1103515245) + 12345 < 2 ^ 53
  · have hsa : s * 1103515245 < 2 ^ 53 := by
      by_contra hge
      push_neg at hge
      have := fl53_ge hge
      omega
    rw [fl53_eq_of_lt hc, fl53_eq_of_lt hsa]
    have e31 : (2 : ℕ) ^ 31 = 2147483648 := by norm_num
    rw [e31]
    intro heq
    have hs : s < 8162280 := by
      by_contra hb
      push_neg at hb
      have h1 : (2 : ℕ) ^ 53 ≤ s * 1103515245 :=
        le_trans (by norm_num) (Nat.mul_le_mul_right 1103515245 hb)
      exact absurd hsa (not_lt.mpr h1)
    have h0 : (230538014 * 1103515245 + 12345) % 2147483648 = 2147483647 := by
      decide
    have hm : Nat.ModEq 2147483648 (s * 1103515245 + 12345)
        (230538014 * 1103515245 + 12345) := by
      unfold Nat.ModEq
      rw [heq, h0]
    have hm2 : Nat.ModEq 2147483648 (1103515245 * s) (1103515245 * 230538014) := by
      have := hm.add_right_cancel' 12345
      rwa [mul_comm s 1103515245, mul_comm 230538014 1103515245] at this
    have hcop : Nat.gcd 2147483648 1103515245 = 1 := by decide
    have hm3 : Nat.ModEq 2147483648 s 230538014 :=
      hm2.cancel_left_of_coprime hcop
    have hfin : s = 230538014 :=
      Nat.ModEq.eq_of_lt_of_lt hm3 (lt_trans hs (by norm_num)) (by norm_num)
    exact absurd (hfin ▸ hs) (by norm_num)
  · push_neg at hc
    obtain ⟨m, hmeq⟩ := fl53_even hc
    rw [hmeq]
    have h31 : (2 : ℕ) ^ 31 = 2 * 2 ^ 30 := by norm_num
    rw [h31, Nat.mul_mod_mul_left]
    intro heq
    omega

lemma nextSeed_le (s : ℕ) : nextSeed s ≤ 2 ^ 31 - 2 := by
  have h1 := nextSeed_lt s
  have h2 := nextSeed_ne s
  omega

lemma nextVal_nonneg (s : ℕ) : 0 ≤ nextVal s := by
  unfold nextVal
  positivity

lemma nextVal_lt_one (s : ℕ) : nextVal s < 1 := by
  unfold nextVal
  rw [div_lt_one (by norm_num)]
  have := nextSeed_le s
  have hcast : (nextSeed s : ℚ) ≤ ((2 ^ 31 - 2 : ℕ) : ℚ) := by exact_mod_cast this
  calc (nextSeed s : ℚ) ≤ ((2 ^ 31 - 2 : ℕ) : ℚ) := hcast
  _ < 2 ^ 31 - 1 := by norm_num

lemma nextVal_le_one (s : ℕ) : nextVal s ≤ 1 := le_of_lt (nextVal_lt_one s)

lemma genValsAux_getD_bounds (n i : ℕ) :
    ∀ s : ℕ, 0 ≤ (genValsAux s n).getD i 0 ∧ (genValsAux s n).getD i 0 ≤ 100 := by
  induction n generalizing i with
  | zero =>
      intro s
      simp [genValsAux]
  | succ m ih =>
      intro s
      cases i with
      | zero =>
          simp only [genValsAux, List.getD_cons_zero, nextS]
          constructor
          · positivity
          · have h := nextVal_le_one s
            unfold nextVal at h
            nlinarith
      | succ j =>
          simp only [genValsAux, List.getD_cons_succ]
          exact ih j _

/-- Every entry read out of `generateRandomValues` lies in `[0, 100]`. -/
lemma generateRandomValues_getD_bounds (units : List ℕ) (n i : ℕ) :
    0 ≤ (generateRandomValues units n).getD i 0 ∧
      (generateRandomValues units n).getD i 0 ≤ 100 :=
  genValsAux_getD_bounds n i (hashStringJS units)

/-! ### Mood presets and the parameter synthesizer (parameter-generator.ts) -/

/-- The `MoodPreset` union type. -/
inductive Mood where
  | melancholic
  | hopeful
  | dramatic
  | serene
  | joyful
deriving Repr, DecidableEq

/-- The `MoodColors` record. -/
structure MoodColors where
  primary : String
  secondary : String
  accent : String
  shadow : String
  highlight : String
deriving Repr, DecidableEq

/-- Embeds `MOOD_PRESETS` (parameter-generator.ts lines 10-46). -/
def MOOD_PRESETS : Mood → MoodColors
  | Mood.melancholic =>
      ⟨"#0a3d62", "#3c6382", "#60a3bc", "#000814", "#e3f2fd"⟩
  | Mood.hopeful =>
      ⟨"#f9ca24", "#f0932b", "#fffa65", "#573b1a", "#fff9e6"⟩
  | Mood.dramatic =>
      ⟨"#1e1e1e", "#ff0844", "#d11145", "#000000", "#ff6b9d"⟩
  | Mood.serene =>
      ⟨"#a8dadc", "#457b9d", "#48cae4", "#1d3557", "#ade8f4"⟩
  | Mood.joyful =>
      ⟨"#ff6b6b", "#4ecdc4", "#ffe66d", "#2d3561", "#ffeaa7"⟩

/-- Value of one hexadecimal digit character (`parseInt(-, 16)` on the
well-formed preset colors). -/
def hexDigit (c : Char) : ℕ :=
  if 48 ≤ c.toNat ∧ c.toNat ≤ 57 then c.toNat - 48
  else if 97 ≤ c.toNat ∧ c.toNat ≤ 102 then c.toNat - 87
  else if 65 ≤ c.toNat ∧ c.toNat ≤ 70 then c.toNat - 55
  else 0

/-- Remove the first occurrence of a character (JS `replace('#', '')`). -/
def removeFirst (c : Char) : List Char → List Char
  | [] => []
  | x :: xs => if x = c then xs else x :: removeFirst c xs

/-- Hexadecimal digit character for a value below 16 (`toString(16)`). -/
def hexChar (n : ℕ) : Char :=
  if n < 10 then Char.ofNat (48 + n) else Char.ofNat (87 + n)

/-- Two-digit lowercase hex rendering of a byte
(`toString(16).padStart(2, '0')`). -/
def hexByteStr (n : ℕ) : String :=
  String.mk [hexChar (n / 16 % 16), hexChar (n % 16)]

/-- Embeds `adjustBrightness` (parameter-generator.ts lines 161-181): parse the three
RGB bytes, add `amount` clamped to `[0, 255]` per channel, re-render in hex. -/
def adjustBrightness (hex : String) (amount : ℤ) : String :=
  let l := removeFirst '#' hex.toList
  let r : ℤ := (16 * hexDigit (l.getD 0 '0') + hexDigit (l.getD 1 '0') : ℕ)
  let g : ℤ := (16 * hexDigit (l.getD 2 '0') + hexDigit (l.getD 3 '0') : ℕ)
  let b : ℤ := (16 * hexDigit (l.getD 4 '0') + hexDigit (l.getD 5 '0') : ℕ)
  let rc := max 0 (min 255 (r + amount))
  let gc := max 0 (min 255 (g + amount))
  let bc := max 0 (min 255 (b + amount))
  "#" ++ hexByteStr rc.toNat ++ hexByteStr gc.toNat ++ hexByteStr bc.toNat

/-- Computable floor of a rational (the denominator is positive). -/
def ratFloor (q : ℚ) : ℤ := q.num.fdiv (q.den : ℤ)

/-- Decimal rendering continued: see `ratStr`. -/
def ratStrAux (sign : String) (ip frac : ℕ) : String :=
  if frac = 0 then sign ++ toString ip
  else
    sign ++ toString ip ++ "." ++
      String.mk
        ((((Nat.toDigits 10 (1000000 + frac)).drop 1).reverse.dropWhile
          (· = '0')).reverse)

/-- Decimal rendering of a rational number, used where a template literal
interpolates a JS number into CSS text.  An integer prints with no point;
otherwise up to six fractional digits are printed with trailing zeros
trimmed.  (JS prints the shortest decimal that round-trips through the
binary64 value; no property proved below depends on the digits chosen.) -/
def ratStr (q : ℚ) : String :=
  let a : ℚ := if q < 0 then -q else q
  let ip : ℕ := (ratFloor a).toNat
  ratStrAux (if q < 0 then "-" else "") ip
    (ratFloor ((a - (ip : ℚ)) * 1000000)).toNat

/-- Embeds `ArtworkParameters.canvas`. -/
structure CanvasParams where
  width : ℚ
  height : ℚ
  backgroundColor : String
  backgroundGradient : String
deriving Repr, DecidableEq

/-- Embeds `ArtworkParameters.palette.skin`. -/
structure SkinPalette where
  base : String
  shadow : String
  highlight : String
  midtone : String
deriving Repr, DecidableEq

/-- Embeds `ArtworkParameters.palette.hair`. -/
structure HairPalette where
  base : String
  highlight : String
  shadow : String
deriving Repr, DecidableEq

/-- Embeds `ArtworkParameters.palette.eyes`. -/
structure EyesPalette where
  iris : String
  sclera : String
  lid : String
deriving Repr, DecidableEq

/-- Embeds `ArtworkParameters.palette.lips`. -/
structure LipsPalette where
  upper : String
  lower : String
  shine : String
deriving Repr, DecidableEq

/-- Embeds `ArtworkParameters.palette.ambient`. -/
structure AmbientPalette where
  cheekShine : String
  foreheadShine : String
deriving Repr, DecidableEq

/-- Embeds `ArtworkParameters.palette`. -/
structure Palette where
  skin : SkinPalette
  hair : HairPalette
  eyes : EyesPalette
  lips : LipsPalette
  ambient : AmbientPalette
deriving Repr, DecidableEq

/-- Embeds `ArtworkParameters.head`. -/
structure HeadParams where
  width : String
  height : String
  top : String
  left : String
  borderRadius : String
  rotation : ℚ
deriving Repr, DecidableEq

/-- Embeds `ArtworkParameters.hair`: the three `Math.floor`ed tendril counts are
integers, `curliness` and `flowAngle` stay rational. -/
structure HairParams where
  frontTendrils : ℤ
  backTendrils : ℤ
  highlightTendrils : ℤ
  curliness : ℚ
  flowAngle : ℚ
deriving Repr, DecidableEq

/-- Embeds `ArtworkParameters.features`. -/
structure FeatureParams where
  eyeSize : ℚ
  noseSize : ℚ
  lipFullness : ℚ
deriving Repr, DecidableEq

/-- Embeds `ArtworkParameters.lighting`. -/
structure LightingParams where
  intensity : ℚ
  angle : ℚ
  shadowLayers : ℤ
deriving Repr, DecidableEq

/-- Embeds `ArtworkParameters.style`. -/
structure StyleParams where
  blur : ℚ
  contrast : String
  aesthetic : String
deriving Repr, DecidableEq

/-- The `ArtworkParameters` record (types.ts lines 5-82). -/
structure ArtworkParameters where
  canvas : CanvasParams
  palette : Palette
  head : HeadParams
  hair : HairParams
  features : FeatureParams
  lighting : LightingParams
  style : StyleParams
deriving Repr, DecidableEq

/-- Embeds `generateParameters` (parameter-generator.ts lines 73-156): thirty draws
from the seeded stream, mood palette lookup (default `serene`), and the field
computations, transcribed one for one. -/
def generateParameters (units : List ℕ) (mood : Option Mood) : ArtworkParameters :=
  let randValues := generateRandomValues units 30
  let rv : ℕ → ℚ := fun i => randValues.getD i 0
  let moodColors := match mood with
    | some m => MOOD_PRESETS m
    | none => MOOD_PRESETS Mood.serene
  { canvas :=
      { width := 650
        height := 800
        backgroundColor := moodColors.shadow
        backgroundGradient :=
          "linear-gradient(to right, " ++ moodColors.shadow ++ ", " ++
            moodColors.primary ++ ")" }
    palette :=
      { skin :=
          { base := moodColors.primary
            shadow := moodColors.shadow
            highlight := moodColors.accent
            midtone := moodColors.secondary }
        hair :=
          { base := adjustBrightness moodColors.shadow (-20)
            highlight := moodColors.accent
            shadow := moodColors.shadow }
        eyes :=
          { iris := moodColors.accent
            sclera := adjustBrightness moodColors.primary 30
            lid := moodColors.primary }
        lips :=
          { upper := adjustBrightness moodColors.secondary (-10)
            lower := moodColors.secondary
            shine := moodColors.highlight }
        ambient :=
          { cheekShine := adjustBrightness moodColors.accent 20
            foreheadShine := moodColors.highlight } }
    head :=
      { width := "37%"
        height := "37%"
        top := ratStr (mapRange (rv 0) 0 100 12 16) ++ "%"
        left := ratStr (mapRange (rv 1) 0 100 27 31) ++ "%"
        borderRadius := "50% 50% 76% 24% / 40% 2% 98% 61%"
        rotation := mapRange (rv 2) 0 100 10 25 }
    hair :=
      { frontTendrils := ⌊mapRange (rv 3) 0 100 35 45⌋
        backTendrils := ⌊mapRange (rv 4) 0 100 20 30⌋
        highlightTendrils := ⌊mapRange (rv 5) 0 100 4 8⌋
        curliness := mapRange (rv 6) 0 100 0.5 1.0
        flowAngle := mapRange (rv 7) 0 100 (-15) 15 }
    features :=
      { eyeSize := mapRange (rv 8) 0 100 0.9 1.1
        noseSize := mapRange (rv 9) 0 100 0.95 1.05
        lipFullness := mapRange (rv 10) 0 100 0.9 1.2 }
    lighting :=
      { intensity := mapRange (rv 11) 0 100 0.6 1.0
        angle := mapRange (rv 12) 0 100 0 360
        shadowLayers := ⌊mapRange (rv 13) 0 100 6 12⌋ }
    style :=
      { blur := mapRange (rv 14) 0 100 0.5 2.5
        contrast := if mood = some Mood.dramatic then "dramatic" else "high"
        aesthetic := "oil-painting" } }

/-- Embeds `validateParameters` (parameter-generator.ts lines 186-194). -/
def validateParameters (params : ArtworkParameters) : Bool :=
  if params.canvas.width ≤ 0 ∨ params.canvas.height ≤ 0 then false
  else if params.head.rotation < -180 ∨ 180 < params.head.rotation then false
  else if params.hair.frontTendrils < 0 ∨ params.hair.backTendrils < 0 then false
  else if params.features.eyeSize ≤ 0 ∨ params.features.noseSize ≤ 0 then false
  else true

/-! ### Range facts about the synthesized parameters -/

lemma mapRange_bounds (v lo hi : ℚ) (h0 : 0 ≤ v) (h100 : v ≤ 100)
    (hlh : lo ≤ hi) :
    lo ≤ mapRange v 0 100 lo hi ∧ mapRange v 0 100 lo hi ≤ hi := by
  unfold mapRange
  constructor
  · have h1 : 0 ≤ (v - 0) * (hi - lo) / (100 - 0) :=
      div_nonneg (mul_nonneg (by linarith) (by linarith)) (by norm_num)
    linarith
  · have h1 : (v - 0) * (hi - lo) ≤ 100 * (hi - lo) := by nlinarith
    have h2 : (v - 0) * (hi - lo) / (100 - 0) ≤ hi - lo := by
      rw [div_le_iff₀ (by norm_num : (0 : ℚ) < 100 - 0)]
      nlinarith
    linarith

lemma floor_bounds_int {q : ℚ} {lo hi : ℤ} (h1 : (lo : ℚ) ≤ q)
    (h2 : q ≤ (hi : ℚ)) : lo ≤ ⌊q⌋ ∧ ⌊q⌋ ≤ hi := by
  refine ⟨Int.le_floor.mpr h1, ?_⟩
  have h3 : ⌊q⌋ ≤ ⌊(hi : ℚ)⌋ := Int.floor_le_floor h2
  simpa using h3

/-- The declared per-field ranges of an Artwork Parameters record, as the
specification lists them. -/
def inDeclaredRanges (P : ArtworkParameters) : Prop :=
  (10 ≤ P.head.rotation ∧ P.head.rotation ≤ 25) ∧
  (35 ≤ P.hair.frontTendrils ∧ P.hair.frontTendrils ≤ 45) ∧
  (20 ≤ P.hair.backTendrils ∧ P.hair.backTendrils ≤ 30) ∧
  (4 ≤ P.hair.highlightTendrils ∧ P.hair.highlightTendrils ≤ 8) ∧
  (0.5 ≤ P.hair.curliness ∧ P.hair.curliness ≤ 1.0) ∧
  (-15 ≤ P.hair.flowAngle ∧ P.hair.flowAngle ≤ 15) ∧
  (0.9 ≤ P.features.eyeSize ∧ P.features.eyeSize ≤ 1.1) ∧
  (0.95 ≤ P.features.noseSize ∧ P.features.noseSize ≤ 1.05) ∧
  (0.9 ≤ P.features.lipFullness ∧ P.features.lipFullness ≤ 1.2) ∧
  (0.6 ≤ P.lighting.intensity ∧ P.lighting.intensity ≤ 1.0) ∧
  (0 ≤ P.lighting.angle ∧ P.lighting.angle ≤ 360) ∧
  (6 ≤ P.lighting.shadowLayers ∧ P.lighting.shadowLayers ≤ 12) ∧
  (0.5 ≤ P.style.blur ∧ P.style.blur ≤ 2.5) ∧
  (0 ≤ P.hair.frontTendrils ∧ 0 ≤ P.hair.backTendrils ∧
    0 ≤ P.hair.highlightTendrils)

lemma generateParameters_ranges (units : List ℕ) (mood : Option Mood) :
    inDeclaredRanges (generateParameters units mood) := by
  have hrv : ∀ i, 0 ≤ (generateRandomValues units 30).getD i 0 ∧
      (generateRandomValues units 30).getD i 0 ≤ 100 :=
    fun i => generateRandomValues_getD_bounds units 30 i
  have hmr : ∀ (i : ℕ) (lo hi : ℚ), lo ≤ hi →
      lo ≤ mapRange ((generateRandomValues units 30).getD i 0) 0 100 lo hi ∧
        mapRange ((generateRandomValues units 30).getD i 0) 0 100 lo hi ≤ hi :=
    fun i lo hi h => mapRange_bounds _ lo hi (hrv i).1 (hrv i).2 h
  have hfl : ∀ (i : ℕ) (lo hi : ℤ), (lo : ℚ) ≤ (hi : ℚ) →
      lo ≤ ⌊mapRange ((generateRandomValues units 30).getD i 0) 0 100 lo hi⌋ ∧
        ⌊mapRange ((generateRandomValues units 30).getD i 0) 0 100 lo hi⌋ ≤ hi :=
    fun i lo hi h =>
      floor_bounds_int (hmr i lo hi h).1 (hmr i lo hi h).2
  unfold inDeclaredRanges
  refine ⟨hmr 2 10 25 (by norm_num), ?_, ?_, ?_,
    hmr 6 0.5 1.0 (by norm_num), hmr 7 (-15) 15 (by norm_num),
    hmr 8 0.9 1.1 (by norm_num), hmr 9 0.95 1.05 (by norm_num),
    hmr 10 0.9 1.2 (by norm_num), hmr 11 0.6 1.0 (by norm_num),
    hmr 12 0 360 (by norm_num), ?_, hmr 14 0.5 2.5 (by norm_num), ?_⟩
  · exact_mod_cast hfl 3 35 45 (by norm_num)
  · exact_mod_cast hfl 4 20 30 (by norm_num)
  · exact_mod_cast hfl 5 4 8 (by norm_num)
  · exact_mod_cast hfl 13 6 12 (by norm_num)
  · refine ⟨?_, ?_, ?_⟩
    · exact le_trans (by norm_num) (hfl 3 35 45 (by norm_num)).1
    · exact le_trans (by norm_num) (hfl 4 20 30 (by norm_num)).1
    · exact le_trans (by norm_num) (hfl 5 4 8 (by norm_num)).1

lemma generateParameters_passes_validate (units : List ℕ) (mood : Option Mood) :
    validateParameters (generateParameters units mood) = true := by
  have h := generateParameters_ranges units mood
  unfold inDeclaredRanges at h
  obtain ⟨hrot, hfront, hback, hhigh, hcurl, hflow, heye, hnose, hlip,
    hint, hang, hshad, hblur, hnn⟩ := h
  have hw : (generateParameters units mood).canvas.width = 650 := rfl
  have hh : (generateParameters units mood).canvas.height = 800 := rfl
  unfold validateParameters
  split_ifs with h1 h2 h3 h4
  · exfalso
    rcases h1 with h | h
    · rw [hw] at h; norm_num at h
    · rw [hh] at h; norm_num at h
  · exfalso
    rcases h2 with h | h
    · linarith [hrot.1]
    · linarith [hrot.2]
  · exfalso
    rcases h3 with h | h
    · omega
    · omega
  · exfalso
    rcases h4 with h | h
    · linarith [heye.1]
    · linarith [hnose.1]
  · rfl

/-- A concrete Artwork Parameters record whose head rotation (170°) lies far
outside the declared range `[10, 25]`. -/
def outOfRangeParams : ArtworkParameters :=
  { canvas :=
      { width := 650
        height := 800
        backgroundColor := "#1d3557"
        backgroundGradient := "linear-gradient(to right, #1d3557, #a8dadc)" }
    palette :=
      { skin :=
          { base := "#a8dadc", shadow := "#1d3557", highlight := "#48cae4"
            midtone := "#457b9d" }
        hair := { base := "#092141", highlight := "#48cae4", shadow := "#1d3557" }
        eyes := { iris := "#48cae4", sclera := "#c6f8fa", lid := "#a8dadc" }
        lips := { upper := "#3b7193", lower := "#457b9d", shine := "#ade8f4" }
        ambient := { cheekShine := "#5cdef8", foreheadShine := "#ade8f4" } }
    head :=
      { width := "37%", height := "37%", top := "14%", left := "29%"
        borderRadius := "50% 50% 76% 24% / 40% 2% 98% 61%"
        rotation := 170 }
    hair :=
      { frontTendrils := 40, backTendrils := 25, highlightTendrils := 6
        curliness := 0.75, flowAngle := 0 }
    features := { eyeSize := 1, noseSize := 1, lipFullness := 1 }
    lighting := { intensity := 0.8, angle := 180, shadowLayers := 9 }
    style := { blur := 1.5, contrast := "high", aesthetic := "oil-painting" } }

/-- C2: for every seed string and every mood (including no mood), every
numeric field of the record returned by `generateParameters` lies within its
declared `[min, max]` range, and every tendril count is a non-negative
integer. -/
theorem claim_C2_parameter_ranges (units : List ℕ) (mood : Option Mood) :
    inDeclaredRanges (generateParameters units mood) :=
  generateParameters_ranges units mood

/-- C4, counterexample: an Artwork Parameters record whose head rotation 170°
is far outside the declared range `[10, 25]` still passes `validateParameters`
(which only checks rotation against `[-180, 180]`), so constructing an
out-of-range record does not fail. -/
theorem claim_C4_counterexample :
    validateParameters outOfRangeParams = true ∧
      (25 : ℚ) < outOfRangeParams.head.rotation := by
  constructor
  · decide
  · decide

/-- C4, amended: `validateParameters` checks only canvas positivity, head
rotation within `[-180, 180]`, non-negative front/back tendril counts and
positive eye/nose scales — not the declared per-field generation ranges — and
`generateParameters` returns its record directly without any generation path
invoking the check; nevertheless every record `generateParameters` produces
would pass `validateParameters`. -/
theorem claim_C4_validate_never_fails (units : List ℕ) (mood : Option Mood) :
    validateParameters (generateParameters units mood) = true :=
  generateParameters_passes_validate units mood

/-! ### Security module (security.ts), over UTF-16 code-unit lists -/

/-- The code units JS `trim` strips and `\s` matches (WhiteSpace and
LineTerminator). -/
def wsUnits : List ℕ :=
  [9, 10, 11, 12, 13, 32, 160, 5760, 8192, 8193, 8194, 8195, 8196, 8197,
   8198, 8199, 8200, 8201, 8202, 8232, 8233, 8239, 8287, 12288, 65279]

/-- Whitespace test for one code unit. -/
def isWsU (c : ℕ) : Bool := wsUnits.contains c

/-- JS `String.prototype.trim`. -/
def trimJS (l : List ℕ) : List ℕ :=
  ((l.dropWhile isWsU).reverse.dropWhile isWsU).reverse

/-- Test for `[a-zA-Z]`. -/
def isAlphaU (c : ℕ) : Bool :=
  (65 ≤ c && c ≤ 90) || (97 ≤ c && c ≤ 122)

/-- Number of `[a-zA-Z]` matches in the whole string
(`prompt.match(/[a-zA-Z]/g).length`). -/
def alphaCount (l : List ℕ) : ℕ := (l.filter isAlphaU).length

/-- ASCII lowering: the case canonicalization a non-Unicode JS regex with the
`i` flag performs (non-ASCII units canonicalize to themselves). -/
def lowerU (c : ℕ) : ℕ := if 65 ≤ c ∧ c ≤ 90 then c + 32 else c

/-- Whether `needle` is a prefix of `hay`. -/
def prefixAt : List ℕ → List ℕ → Bool
  | [], _ => true
  | _ :: _, [] => false
  | a :: as, b :: bs => a == b && prefixAt as bs

/-- Whether `needle` occurs as a contiguous subsequence of `hay`. -/
def containsSeq (needle : List ℕ) : List ℕ → Bool
  | [] => prefixAt needle []
  | c :: rest => prefixAt needle (c :: rest) || containsSeq needle rest

/-- Case-insensitive substring test (a fixed-word regex with flag `i`). -/
def containsCI (needle hay : List ℕ) : Bool :=
  containsSeq (needle.map lowerU) (hay.map lowerU)

/-- Code units of an ASCII Lean string literal. -/
def strU (s : String) : List ℕ := s.toList.map Char.toNat

/-- LineTerminator code units (which `.` in a JS regex does not match). -/
def lineTermU (c : ℕ) : Bool := c == 10 || c == 13 || c == 8232 || c == 8233

/-- Test for `/(.)\1{10,}/i`: some non-line-terminator unit is followed by at
least ten units with the same case canonicalization. -/
def hasRun : List ℕ → Bool
  | [] => false
  | c :: rest =>
      (!lineTermU c &&
        10 ≤ (rest.takeWhile (fun d => lowerU d == lowerU c)).length) ||
      hasRun rest

/-- The `spamPatterns` test loop of `validatePrompt` (security.ts lines
43-60): repeated-character runs, URLs, script tags, the `javascript:`
protocol, event-handler names, and `eval(`. -/
def spamMatch (p : List ℕ) : Bool :=
  hasRun p ||
  containsCI (strU ("http://")) p ||
  containsCI (strU ("https://")) p ||
  containsCI (strU ("<script")) p ||
  containsCI (strU ("javascript:")) p ||
  containsCI (strU ("onclick")) p ||
  containsCI (strU ("onerror")) p ||
  containsCI (strU ("eval(")) p

/-- The `ValidationResult` interface. -/
structure ValidationResult where
  valid : Bool
  reason : Option String
deriving Repr, DecidableEq

/-- Embeds `validatePrompt` (security.ts lines 19-75).  The alphabetic-ratio test
`alphaCount / totalLength < 0.3` is taken over the exact rationals,
equivalently `10 * alphaCount < 3 * totalLength` (no ratio value with
denominator at most 500 falls inside the rounding gap of the binary64
literal `0.3`). -/
def validatePrompt (p : List ℕ) : ValidationResult :=
  if (trimJS p).length = 0 then
    ⟨false, some ("Prompt cannot be empty")⟩
  else if p.length < 3 then
    ⟨false, some ("Prompt too short (minimum 3 characters)")⟩
  else if 500 < p.length then
    ⟨false, some ("Prompt too long (maximum 500 characters)")⟩
  else if spamMatch p then
    ⟨false, some ("Prompt contains suspicious content")⟩
  else if 10 * alphaCount p < 3 * (trimJS p).length then
    ⟨false, some ("Prompt must contain meaningful text")⟩
  else
    ⟨true, none⟩

/-- Collapse every maximal whitespace run to a single space
(`replace(/\s+/g, ' ')`). -/
def collapseWS : List ℕ → List ℕ
  | [] => []
  | [c] => if isWsU c then [32] else [c]
  | c :: d :: rest =>
      if isWsU c then
        if isWsU d then collapseWS (d :: rest)
        else 32 :: collapseWS (d :: rest)
      else c :: collapseWS (d :: rest)

/-- Embeds `sanitizePrompt` (security.ts lines 80-86): trim, drop every `<` and `>`,
collapse whitespace, truncate to 500 units. -/
def sanitizePrompt (p : List ℕ) : List ℕ :=
  (collapseWS ((trimJS p).filter (fun c => !(c == 60 || c == 62)))).take 500

/-- Length of `prompt.trim().toLowerCase().split(/\s+/)`: one for the empty
trimmed string, otherwise the number of maximal non-whitespace runs (one more
than the number of separators, i.e. of spaces after collapsing). -/
def wordCount (p : List ℕ) : ℕ :=
  let t := trimJS p
  if t.length = 0 then 1
  else ((collapseWS t).filter (fun c => c == 32)).length + 1

/-- Embeds `validateQuality` (security.ts lines 136-158): rejects fewer than two
words; the art-keyword check only warns and never rejects. -/
def validateQuality (p : List ℕ) : ValidationResult :=
  if wordCount p < 2 then
    ⟨false,
      some ("Prompt should describe the artwork (e.g., \"serene portrait in blue tones\")")⟩
  else ⟨true, none⟩

/-! ### Counter, rate limiter and the /api/generate route (counter-cloud.ts,
app/api/generate/route.ts), with the in-memory state passed explicitly.
Millisecond clock readings (`Date.now()`) enter as explicit `now : ℤ`
arguments; ISO timestamp strings are represented by the same clock value. -/

/-- The `GenerationRecord` interface (counter-cloud.ts lines 7-13). -/
structure GenerationRecord where
  generationNumber : ℕ
  fingerprint : String
  promptHash : String
  timestamp : ℤ
  ipHash : Option String
deriving Repr, DecidableEq

/-- The `CounterData` interface (counter-cloud.ts lines 15-19). -/
structure CounterData where
  totalGenerated : ℕ
  lastGeneration : ℤ
  startedAt : ℤ
deriving Repr, DecidableEq

/-- The module-level mutable state of counter-cloud.ts: `counter`, `registry`
and the `recentGenerations` map (an association list from hashed IP to the
recorded timestamps). -/
structure ServerState where
  counter : CounterData
  registry : List GenerationRecord
  recent : List (String × List ℤ)
deriving Repr, DecidableEq

/-- Embeds `Map.get` on the recent-generations map (absent key gives `[]`, matching
`recentGenerations.get(ipHash) || []`). -/
def lookupTs : List (String × List ℤ) → String → List ℤ
  | [], _ => []
  | (k, v) :: r, key => if k == key then v else lookupTs r key

/-- Embeds `Map.set` on the recent-generations map. -/
def setTs : List (String × List ℤ) → String → List ℤ → List (String × List ℤ)
  | [], key, v => [(key, v)]
  | (k, w) :: r, key, v =>
      if k == key then (key, v) :: r else (k, w) :: setTs r key v

/-- Embeds `hashIP` (counter-cloud.ts lines 97-105): the rolling hash rendered in
lowercase hex. -/
def hashIPHex (ip : List ℕ) : String :=
  String.mk (Nat.toDigits 16 (hashStringJS ip))

/-- Embeds `checkRateLimit` (counter-cloud.ts lines 74-92).  Note the update on
line 88: the map receives `[...timestamps, now]` on every call with a truthy
IP, whether or not the caller is within the limit. -/
def checkRateLimit (st : ServerState) (ip : List ℕ) (now : ℤ) :
    Bool × ServerState :=
  if ip.isEmpty then (true, st)
  else
    let ipHash := hashIPHex ip
    let filtered := (lookupTs st.recent ipHash).filter
      (fun t => now - 3600000 < t)
    (filtered.length < 10,
      { st with recent := setTs st.recent ipHash (filtered ++ [now]) })

/-- Embeds `incrementCounter` (counter-cloud.ts lines 41-69). -/
def incrementCounter (st : ServerState) (fingerprint promptHash : String)
    (ip : Option (List ℕ)) (now : ℤ) : ℕ × ServerState :=
  let newNumber := st.counter.totalGenerated + 1
  let record : GenerationRecord :=
    { generationNumber := newNumber
      fingerprint := fingerprint
      promptHash := promptHash
      timestamp := now
      ipHash := ip.map hashIPHex }
  let reg := st.registry ++ [record]
  (newNumber,
    { counter :=
        { totalGenerated := newNumber
          lastGeneration := now
          startedAt := st.counter.startedAt }
      registry := if 1000 < reg.length then reg.drop 1 else reg
      recent := st.recent })

/-- The JSON responses of the POST /api/generate handler, tagged by their
HTTP status: 429 with `retryAfter`, 400 for missing fields, 400 with the
validation reason, 200 with the generation number. -/
inductive GenResponse where
  | rateLimited (retryAfter : ℕ)
  | missingFields
  | invalidPrompt (reason : Option String)
  | ok (generationNumber : ℕ)
deriving Repr, DecidableEq

/-- JS truthiness of an optional string (absent or empty is falsy). -/
def optStrTruthy : Option String → Bool
  | none => false
  | some s => !(s == "")

/-- JS truthiness of an optional code-unit string. -/
def optUnitsTruthy : Option (List ℕ) → Bool
  | none => false
  | some l => !l.isEmpty

/-- The IP resolution of the POST handler (route lines 18-20):
`x-forwarded-for || x-real-ip || 'unknown'`. -/
def resolveIp (xff xri : Option (List ℕ)) : List ℕ :=
  if optUnitsTruthy xff then xff.getD []
  else if optUnitsTruthy xri then xri.getD []
  else strU ("unknown")

/-- The POST /api/generate handler (route lines 15-83): rate-limit check,
required-field check, prompt validation, then counter increment. -/
def postGenerate (st : ServerState) (xff xri : Option (List ℕ))
    (fingerprint promptHash : Option String) (prompt : Option (List ℕ))
    (now : ℤ) : GenResponse × ServerState :=
  let ip := resolveIp xff xri
  let st1 := (checkRateLimit st ip now).2
  if !(checkRateLimit st ip now).1 then (GenResponse.rateLimited 3600, st1)
  else if !(optStrTruthy fingerprint && optStrTruthy promptHash &&
      optUnitsTruthy prompt) then
    (GenResponse.missingFields, st1)
  else if !(validatePrompt (prompt.getD [])).valid then
    (GenResponse.invalidPrompt (validatePrompt (prompt.getD [])).reason, st1)
  else
    ((GenResponse.ok
        (incrementCounter st1 (fingerprint.getD "") (promptHash.getD "")
          (some ip) now).1),
      (incrementCounter st1 (fingerprint.getD "") (promptHash.getD "")
        (some ip) now).2)

/-- The GET /api/generate handler (route lines 85-100): reads the counter. -/
def getCounter (st : ServerState) : CounterData := st.counter

/-- One request against the route: a POST with its headers, body and clock
reading, or a GET. -/
inductive ApiRequest where
  | post (xff xri : Option (List ℕ)) (fingerprint promptHash : Option String)
      (prompt : Option (List ℕ)) (now : ℤ)
  | get
deriving Repr, DecidableEq

/-- State after serving one request. -/
def applyRequest (st : ServerState) : ApiRequest → ServerState
  | ApiRequest.post xff xri fp ph prompt now =>
      (postGenerate st xff xri fp ph prompt now).2
  | ApiRequest.get => st

/-- State after serving a sequence of requests. -/
def runRequests (st : ServerState) : List ApiRequest → ServerState
  | [] => st
  | r :: rest => runRequests (applyRequest st r) rest

/-! ### Claims about the stream, the gatekeeper and the counter -/

/-- C3: the value stream is deterministic — two freshly constructed
`SeededRandom` instances over the same seed string (the empty string
included) produce identical sequences of `n` values, and
`generateRandomValues` is a pure function of seed and count with no
external entropy. -/
theorem claim_C3_stream_deterministic (s : List ℕ) (n : ℕ)
    (r1 r2 : SeededRandom) (h1 : r1 = mkSeededRandom s)
    (h2 : r2 = mkSeededRandom s) :
    stream r1 n = stream r2 n ∧
      generateRandomValues s n = generateRandomValues s n := by
  subst h1
  subst h2
  exact ⟨rfl, rfl⟩

/-- Witness for C3 at the empty seed string and five draws. -/
theorem claim_C3_witness :
    stream (mkSeededRandom []) 5 = stream (mkSeededRandom []) 5 ∧
      generateRandomValues [] 5 = generateRandomValues [] 5 :=
  claim_C3_stream_deterministic [] 5 (mkSeededRandom []) (mkSeededRandom [])
    rfl rfl

lemma resolveIp_not_empty (xff xri : Option (List ℕ)) :
    (resolveIp xff xri).isEmpty = false := by
  unfold resolveIp
  split_ifs with h1 h2
  · cases xff with
    | none => simp [optUnitsTruthy] at h1
    | some l =>
        simp only [optUnitsTruthy, Bool.not_eq_true'] at h1
        simpa using h1
  · cases xri with
    | none => simp [optUnitsTruthy] at h2
    | some l =>
        simp only [optUnitsTruthy, Bool.not_eq_true'] at h2
        simpa using h2
  · decide

lemma checkRateLimit_counter (st : ServerState) (ip : List ℕ) (now : ℤ) :
    ((checkRateLimit st ip now).2).counter = st.counter := by
  unfold checkRateLimit
  split <;> rfl

/-- Number of recorded timestamps for a caller inside the trailing hour. -/
def recentCount (st : ServerState) (ip : List ℕ) (now : ℤ) : ℕ :=
  ((lookupTs st.recent (hashIPHex ip)).filter
    (fun t => now - 3600000 < t)).length

lemma checkRateLimit_fst (st : ServerState) (ip : List ℕ) (now : ℤ)
    (h : ip.isEmpty = false) :
    (checkRateLimit st ip now).1 = decide (recentCount st ip now < 10) := by
  unfold checkRateLimit recentCount
  simp [h]

/-- C6, amended: the limiter records a timestamp for every request that
reaches the rate-limit check — including requests later rejected by
validation and requests the limiter itself rejects — and the POST handler
answers 429 (`rateLimited 3600`) exactly when at least ten recorded
timestamps for the caller lie within the trailing hour, independently of the
request body; with fewer than ten recorded timestamps the request proceeds,
so a caller is served again once enough recorded timestamps age past the
one-hour mark. -/
theorem claim_C6_rate_limit_iff (st : ServerState)
    (xff xri : Option (List ℕ)) (fp ph : Option String)
    (prompt : Option (List ℕ)) (now : ℤ) :
    (postGenerate st xff xri fp ph prompt now).1 =
        GenResponse.rateLimited 3600 ↔
      10 ≤ recentCount st (resolveIp xff xri) now := by
  have hone := resolveIp_not_empty xff xri
  simp only [postGenerate]
  rw [checkRateLimit_fst st (resolveIp xff xri) now hone]
  by_cases hlt : recentCount st (resolveIp xff xri) now < 10
  · have h10 : ¬ (10 ≤ recentCount st (resolveIp xff xri) now) := by omega
    rw [decide_eq_true hlt]
    simp only [Bool.not_true, Bool.false_eq_true, if_false]
    split_ifs <;> simp [h10]
  · have h10 : 10 ≤ recentCount st (resolveIp xff xri) now := by omega
    rw [decide_eq_false hlt]
    simp [h10]

/-- The eleven-request scenario refuting C6 as stated: ten POSTs whose prompt
fails validation (each answered 400), then one POST with a valid prompt,
which the limiter nevertheless rejects. -/
def quotaScenario : List GenResponse × ServerState :=
  ((List.range 10).map (fun i => (strU ("ab"), (i : ℤ) + 1)) ++
      [(strU ("serene portrait"), 11)]).foldl
    (fun (acc : List GenResponse × ServerState) (pr : List ℕ × ℤ) =>
      (acc.1 ++
          [(postGenerate acc.2 (some (strU ("1.2.3.4"))) none (some ("fp"))
              (some ("ph")) (some pr.1) pr.2).1],
        (postGenerate acc.2 (some (strU ("1.2.3.4"))) none (some ("fp"))
            (some ("ph")) (some pr.1) pr.2).2))
    ([], ⟨⟨0, 0, 0⟩, [], []⟩)

/-- C6, counterexample: after ten requests that were all rejected by
validation (zero accepted generations), the eleventh request — the caller's
first valid one — is answered with the 429 rate-limit response: requests
rejected by validation do consume quota. -/
theorem claim_C6_counterexample :
    quotaScenario.1.getLast? = some (GenResponse.rateLimited 3600) ∧
      quotaScenario.2.counter.totalGenerated = 0 ∧
      quotaScenario.1.take 10 =
        List.replicate 10
          (GenResponse.invalidPrompt
            (some ("Prompt too short (minimum 3 characters)"))) := by
  set_option maxRecDepth 100000 in decide

/-- C5, counterexample: a one-word prompt (`portrait`) passes every check of
the POST validation path and is accepted with generation number 1, though its
word count is 1. -/
theorem claim_C5_counterexample :
    (postGenerate ⟨⟨0, 0, 0⟩, [], []⟩ (some (strU ("1.2.3.4"))) none
        (some ("fp")) (some ("ph")) (some (strU ("portrait"))) 1).1 =
        GenResponse.ok 1 ∧
      wordCount (strU ("portrait")) = 1 := by
  decide

/-- C5, amended: the POST handler validates only with `validatePrompt`, which
imposes no minimum word count, so an accepted prompt may be a single word;
the two-word minimum is enforced by `validateQuality` (invoked by the client
page before POSTing, not by the route): every prompt `validateQuality`
accepts has at least two whitespace-delimited words, and a one-word prompt is
rejected by it with a specific reason. -/
theorem claim_C5_quality_requires_two_words (p : List ℕ) :
    ((validateQuality p).valid = true → 2 ≤ wordCount p) ∧
    (wordCount p < 2 → (validateQuality p).valid = false ∧
      ((validateQuality p).reason).isSome = true) := by
  unfold validateQuality
  by_cases h : wordCount p < 2
  · simp [h]
  · simp [h]
    omega

/-- Witness for C5's amended claim at a two-word and a one-word prompt. -/
theorem claim_C5_witness :
    (2 ≤ wordCount (strU ("a b"))) ∧
      (validateQuality (strU ("cat"))).valid = false ∧
      ((validateQuality (strU ("cat"))).reason).isSome = true :=
  ⟨(claim_C5_quality_requires_two_words (strU ("a b"))).1 (by decide),
   (claim_C5_quality_requires_two_words (strU ("cat"))).2 (by decide)⟩

lemma applyRequest_counter_le (st : ServerState) (r : ApiRequest) :
    st.counter.totalGenerated ≤ (applyRequest st r).counter.totalGenerated := by
  cases r with
  | get => exact le_refl _
  | post xff xri fp ph prompt now =>
      show st.counter.totalGenerated ≤
        (postGenerate st xff xri fp ph prompt now).2.counter.totalGenerated
      have hcrl := checkRateLimit_counter st (resolveIp xff xri) now
      simp only [postGenerate]
      split_ifs <;> (simp only [incrementCounter]; rw [hcrl]; try omega)

lemma runRequests_counter_le (reqs : List ApiRequest) :
    ∀ st : ServerState,
      st.counter.totalGenerated ≤
        (runRequests st reqs).counter.totalGenerated := by
  induction reqs with
  | nil => intro st; exact le_refl _
  | cons r rest ih =>
      intro st
      exact le_trans (applyRequest_counter_le st r) (ih (applyRequest st r))

/-- C7: each `incrementCounter` call increases `totalGenerated` by exactly
one and returns the new value as the assigned generation number, and across
any sequence of requests the `totalGenerated` read by the counter query
endpoint never decreases. -/
theorem claim_C7_counter_monotone :
    (∀ (st : ServerState) (fp ph : String) (ip : Option (List ℕ)) (now : ℤ),
        (incrementCounter st fp ph ip now).1 =
            st.counter.totalGenerated + 1 ∧
          (getCounter ((incrementCounter st fp ph ip now).2)).totalGenerated =
            st.counter.totalGenerated + 1) ∧
    ∀ (st : ServerState) (reqs : List ApiRequest),
        (getCounter st).totalGenerated ≤
          (getCounter (runRequests st reqs)).totalGenerated := by
  constructor
  · intro st fp ph ip now
    exact ⟨rfl, rfl⟩
  · intro st reqs
    exact runRequests_counter_le reqs st

/-! ### Claims about prompt validation and sanitization -/

lemma wordCount_of_trim_empty {p : List ℕ} (h : (trimJS p).length = 0) :
    wordCount p = 1 := by
  unfold wordCount
  simp [h]

lemma spamMatch_of_script {p : List ℕ}
    (h : containsCI (strU ("<script")) p = true) : spamMatch p = true := by
  unfold spamMatch
  simp [h]

/-- C8: `validatePrompt` rejects every prompt shorter than 3 or longer than
500 code units with a specific reason; accepts every length-3 prompt with at
least two whitespace-delimited words, alphabetic ratio at least 30% and no
spam-pattern match; and rejects every prompt containing `<script`
(case-insensitive) whatever its length. -/
theorem claim_C8_validatePrompt_boundaries (p : List ℕ) :
    (p.length < 3 ∨ 500 < p.length →
      (validatePrompt p).valid = false ∧
        ((validatePrompt p).reason).isSome = true) ∧
    (p.length = 3 → 2 ≤ wordCount p →
      3 * (trimJS p).length ≤ 10 * alphaCount p → spamMatch p = false →
      (validatePrompt p).valid = true) ∧
    (containsCI (strU ("<script")) p = true →
      (validatePrompt p).valid = false) := by
  refine ⟨?_, ?_, ?_⟩
  · intro hlen
    unfold validatePrompt
    split_ifs with h1 h2 h3 h4 h5
    · exact ⟨rfl, rfl⟩
    · exact ⟨rfl, rfl⟩
    · exact ⟨rfl, rfl⟩
    · exact ⟨rfl, rfl⟩
    · exact ⟨rfl, rfl⟩
    · rcases hlen with h | h
      · exact absurd h h2
      · exact absurd h h3
  · intro hlen hw hratio hspam
    unfold validatePrompt
    split_ifs with h1 h2 h3 h4 h5
    · exact absurd (wordCount_of_trim_empty h1) (by omega)
    · omega
    · omega
    · exact absurd h4 (by simp [hspam])
    · omega
    · rfl
  · intro hscript
    unfold validatePrompt
    split_ifs with h1 h2 h3 h4 h5
    · rfl
    · rfl
    · rfl
    · rfl
    · rfl
    · exact absurd (spamMatch_of_script hscript) (by simp [h4])

/-- Witness for C8: a length-2 prompt is rejected with a reason, the
length-3 two-word prompt `a b` is accepted, and the length-7 prompt
`<script` is rejected. -/
theorem claim_C8_witness :
    ((validatePrompt (strU ("ab"))).valid = false ∧
      ((validatePrompt (strU ("ab"))).reason).isSome = true) ∧
    (validatePrompt (strU ("a b"))).valid = true ∧
    (validatePrompt (strU ("<script"))).valid = false :=
  ⟨(claim_C8_validatePrompt_boundaries (strU ("ab"))).1 (by decide),
   (claim_C8_validatePrompt_boundaries (strU ("a b"))).2.1 (by decide)
     (by decide) (by decide) (by decide),
   (claim_C8_validatePrompt_boundaries (strU ("<script"))).2.2 (by decide)⟩

lemma collapseWS_mem {c : ℕ} (l : List ℕ) (h : c ∈ collapseWS l) :
    c = 32 ∨ c ∈ l := by
  induction l using collapseWS.induct with
  | case1 => simp [collapseWS] at h
  | case2 d hws =>
      unfold collapseWS at h
      rw [if_pos hws] at h
      simp at h
      exact Or.inl h
  | case3 d hws =>
      unfold collapseWS at h
      rw [if_neg hws] at h
      simp at h
      simp [h]
  | case4 d e rest hd he ih =>
      unfold collapseWS at h
      rw [if_pos hd, if_pos he] at h
      rcases ih h with h2 | h2
      · exact Or.inl h2
      · simp [h2]
  | case5 d e rest hd he ih =>
      unfold collapseWS at h
      rw [if_pos hd, if_neg he] at h
      rcases List.mem_cons.mp h with h2 | h2
      · exact Or.inl h2
      · rcases ih h2 with h3 | h3
        · exact Or.inl h3
        · simp [h3]
  | case6 d e rest hd ih =>
      unfold collapseWS at h
      rw [if_neg hd] at h
      rcases List.mem_cons.mp h with h2 | h2
      · subst h2; simp
      · rcases ih h2 with h3 | h3
        · exact Or.inl h3
        · simp [h3]

/-- C10: for every input, `sanitizePrompt` returns at most 500 code units and
the result contains no `<` (60) and no `>` (62), so the sanitized prompt text
embedded later in the provenance CSS comment and the certificate cannot open
or close a tag. -/
theorem claim_C10_sanitize_no_angles (p : List ℕ) :
    (sanitizePrompt p).length ≤ 500 ∧
      ∀ c ∈ sanitizePrompt p, c ≠ 60 ∧ c ≠ 62 := by
  constructor
  · unfold sanitizePrompt
    rw [List.length_take]
    exact Nat.min_le_left _ _
  · intro c hc
    unfold sanitizePrompt at hc
    have h1 : c ∈ collapseWS ((trimJS p).filter (fun d => !(d == 60 || d == 62))) :=
      List.mem_of_mem_take hc
    rcases collapseWS_mem _ h1 with h2 | h2
    · omega
    · have h3 := List.of_mem_filter h2
      simp only [Bool.not_eq_true', Bool.or_eq_false_iff, beq_eq_false_iff_ne] at h3
      exact h3

/-- Witness for C10 at the prompt `a <b>`, whose sanitized form contains the
unit 97. -/
theorem claim_C10_witness :
    (sanitizePrompt (strU ("a <b>"))).length ≤ 500 ∧
      (97 : ℕ) ≠ 60 ∧ (97 : ℕ) ≠ 62 :=
  ⟨(claim_C10_sanitize_no_angles (strU ("a <b>"))).1,
   (claim_C10_sanitize_no_angles (strU ("a <b>"))).2 97 (by decide)⟩

/-- C9: from every internal state reachable through the string constructor
and `next()` (any natural-number state), `next()` returns a value in
`[0, 1)`, and for all integers `min ≤ max`, `nextInt(min, max)` returns an
integer in `[min, max]`. -/
theorem claim_C9_next_in_range (s : ℕ) (lo hi : ℤ) (h : lo ≤ hi) :
    0 ≤ nextVal s ∧ nextVal s < 1 ∧
      lo ≤ nextIntVal s lo hi ∧ nextIntVal s lo hi ≤ hi := by
  have h0 := nextVal_nonneg s
  have h1 := nextVal_lt_one s
  refine ⟨h0, h1, ?_, ?_⟩
  · unfold nextIntVal
    have hn : (0 : ℚ) ≤ (hi : ℚ) - (lo : ℚ) + 1 := by
      have : (lo : ℚ) ≤ (hi : ℚ) := by exact_mod_cast h
      linarith
    have hnn : 0 ≤ nextVal s * ((hi : ℚ) - (lo : ℚ) + 1) := mul_nonneg h0 hn
    have hfl : (0 : ℤ) ≤ ⌊nextVal s * ((hi : ℚ) - (lo : ℚ) + 1)⌋ :=
      Int.floor_nonneg.mpr hnn
    omega
  · unfold nextIntVal
    have hcast : (lo : ℚ) ≤ (hi : ℚ) := by exact_mod_cast h
    have hpos : (0 : ℚ) < (hi : ℚ) - (lo : ℚ) + 1 := by linarith
    have hlt : nextVal s * ((hi : ℚ) - (lo : ℚ) + 1) <
        (hi : ℚ) - (lo : ℚ) + 1 := by
      calc nextVal s * ((hi : ℚ) - (lo : ℚ) + 1) <
          1 * ((hi : ℚ) - (lo : ℚ) + 1) :=
            mul_lt_mul_of_pos_right h1 hpos
      _ = (hi : ℚ) - (lo : ℚ) + 1 := one_mul _
    have hfl : ⌊nextVal s * ((hi : ℚ) - (lo : ℚ) + 1)⌋ < hi - lo + 1 := by
      apply Int.floor_lt.mpr
      push_cast
      exact hlt
    omega

/-- Witness for C9 at state 0 and the range `[0, 5]`. -/
theorem claim_C9_witness :
    0 ≤ nextVal 0 ∧ nextVal 0 < 1 ∧
      (0 : ℤ) ≤ nextIntVal 0 0 5 ∧ nextIntVal 0 0 5 ≤ 5 :=
  claim_C9_next_in_range 0 0 5 (by decide)

/-! ### Template renderer (css-generator.ts): `generateCSS` / `generateHTML`.
`Math.sin` and `Math.cos` at the integer loop indices enter as explicit
function arguments `sinQ`, `cosQ`; the `Math.random()` draw consumed in each
front-tendril iteration enters as the explicit entropy stream `rand`,
indexed by the loop counter. -/

/-- JS `Number.prototype.toFixed(d)`: the integer numerator nearest to
`q * 10 ^ d` (ties toward the larger), rendered with `d` decimals. -/
def jsToFixed (d : ℕ) (q : ℚ) : String :=
  let scaled : ℤ := ratFloor (q * (10 : ℚ) ^ d + 1 / 2)
  let sign := if scaled < 0 then "-" else ""
  let m := scaled.natAbs
  if d = 0 then sign ++ toString (m : ℤ)
  else
    sign ++ toString (m / 10 ^ d) ++ "." ++
      String.mk ((Nat.toDigits 10 (10 ^ d + m % 10 ^ d)).drop 1)

/-- Embeds `generateBaseStyles` (css-generator.ts lines 35-60). -/
def generateBaseStyles : String :=
"
div, div:after, div:before \x7b
  position: absolute;
  print-color-adjust: exact;
  filter: opacity(1);
  box-sizing: border-box;
\x7d

html \x7b
  min-width: 765px;
\x7d

body \x7b
  background-color: #0e0909;
  background-image: linear-gradient(to bottom, #121f27, #040709);
  padding: 2.25% 5px;
  margin: 0;
  display: flex;
  justify-content: center;
  align-items: center;
  min-height: 100vh;
\x7d

"

/-- Embeds `generateCanvasStyles` (css-generator.ts lines 62-83). -/
def generateCanvasStyles (p : ArtworkParameters) : String :=
"
.paper \x7b
  position: relative;
  margin: auto;
  background-color: " ++ p.canvas.backgroundColor ++ ";
  overflow: hidden;
  box-sizing: content-box;
  width: " ++ ratStr p.canvas.width ++ "px;
  height: " ++ ratStr p.canvas.height ++ "px;
\x7d

.container \x7b
  position: relative;
  margin: auto;
  width: 100%;
  height: 100%;
  background-image: " ++ p.canvas.backgroundGradient ++ ";
\x7d

"

/-- Embeds `generateHeadStyles` (css-generator.ts lines 85-106). -/
def generateHeadStyles (p : ArtworkParameters) : String :=
"
.head \x7b
  border-radius: " ++ p.head.borderRadius ++ ";
  transform: rotate(" ++ ratStr p.head.rotation ++ "deg);
  background-color: " ++ p.palette.skin.base ++ ";
  background-image:
    linear-gradient(150deg, " ++ p.palette.skin.highlight ++ "03 75%, " ++
      p.palette.skin.highlight ++ " 78%),
    linear-gradient(152deg, transparent 88%, " ++ p.palette.skin.shadow ++ " 91%);
  box-shadow:
    inset 7px 33px 14px -4px " ++ p.palette.skin.highlight ++ ",
    inset -5px -1px 12px -1px " ++ p.palette.skin.highlight ++ "55,
    inset -70px -2px 63px 2px " ++ p.palette.skin.shadow ++ "96,
    inset 20px 2px 20px -3px " ++ p.palette.skin.midtone ++ ";
  width: " ++ p.head.width ++ ";
  height: " ++ p.head.height ++ ";
  left: " ++ p.head.left ++ ";
  top: " ++ p.head.top ++ ";
\x7d

"

/-- One front-tendril block of the hair loop (css-generator.ts lines
193-206), with the `Math.random()` opacity draw taken from `rand i`. -/
def frontTendrilCSS (sinQ cosQ rand : ℕ → ℚ) (p : ArtworkParameters)
    (i : ℕ) : String :=
  let rotation : ℚ :=
    -180 + 360 / (p.hair.frontTendrils : ℚ) * (i : ℚ) * p.hair.curliness
  let left : ℚ := 30 + 50 / (p.hair.frontTendrils : ℚ) * (i : ℚ)
  let height : ℚ := 40 + sinQ i * 20
  let top : ℚ := 10 + cosQ i * 15
  ".front .tendril-" ++ toString i ++ " \x7b
  left: " ++ jsToFixed 1 left ++ "%;
  height: " ++ jsToFixed 1 height ++ "%;
  top: " ++ jsToFixed 1 top ++ "%;
  transform: rotate(" ++ jsToFixed 1 rotation ++ "deg);
  opacity: " ++ jsToFixed 2 (0.6 + rand i * 0.4) ++ ";
\x7d

"

/-- One back-tendril block of the hair loop (css-generator.ts lines
209-221). -/
def backTendrilCSS (sinQ cosQ : ℕ → ℚ) (p : ArtworkParameters)
    (i : ℕ) : String :=
  let rotation : ℚ := -90 + 180 / (p.hair.backTendrils : ℚ) * (i : ℚ)
  let left : ℚ := 20 + 80 / (p.hair.backTendrils : ℚ) * (i : ℚ)
  let height : ℚ := 35 + sinQ i * 25
  let top : ℚ := 5 + cosQ i * 20
  ".back .tendril-" ++ toString i ++ " \x7b
  left: " ++ jsToFixed 1 left ++ "%;
  height: " ++ jsToFixed 1 height ++ "%;
  top: " ++ jsToFixed 1 top ++ "%;
  transform: rotate(" ++ jsToFixed 1 rotation ++ "deg);
\x7d

"

/-- Embeds `generateHairStyles` (css-generator.ts lines 108-224): the fixed hair
blocks, then one positioned block per front tendril (each consuming one
`Math.random()` draw for its opacity) and per back tendril. -/
def generateHairStyles (sinQ cosQ rand : ℕ → ℚ)
    (p : ArtworkParameters) : String :=
  "
.hair \x7b
  width: 65%;
  height: 60%;
  top: 2.5%;
  left: 17%;
  transform: rotate(" ++ ratStr p.hair.flowAngle ++ "deg);
\x7d

.hair.back \x7b
  z-index: 1;
\x7d

.hair.front \x7b
  z-index: 100;
\x7d

.hair.highlights \x7b
  z-index: 101;
  opacity: 0.6;
\x7d

.tendril \x7b
  width: 5%;
  height: 100%;
  filter: blur(" ++ ratStr p.style.blur ++ "px);
  transform-origin: 50% 0;
\x7d

.tendril:before, .tendril:after \x7b
  content: \"\";
  width: 100%;
  height: 100%;
  left: 0;
  top: 0;
  position: absolute;
\x7d

.front .tendril:before \x7b
  background-image: radial-gradient(
    ellipse farthest-corner at -28% 50%,
    transparent 49%,
    " ++ p.palette.hair.shadow ++ "91 55%,
    " ++ p.palette.hair.base ++ "76,
    transparent 85%
  );
  background-size: 100% 8%;
  background-position: 0 22%;
\x7d

.front .tendril:after \x7b
  background-image: radial-gradient(
    ellipse farthest-corner at 128% 50%,
    transparent 57%,
    " ++ p.palette.hair.base ++ ",
    transparent 71%
  );
  background-size: 100% 8%;
\x7d

.back .tendril:before \x7b
  background-image: radial-gradient(
    ellipse farthest-corner at -28% 50%,
    transparent 53%,
    " ++ p.palette.hair.highlight ++ " 67%,
    transparent 71%
  );
  background-size: 100% 8%;
  background-position: 0 22%;
\x7d

.back .tendril:after \x7b
  background-image: radial-gradient(
    ellipse farthest-corner at 128% 50%,
    transparent 59%,
    " ++ p.palette.hair.highlight ++ ",
    transparent 71%
  );
  background-size: 100% 8%;
\x7d

" ++
  String.join ((List.range' 1 p.hair.frontTendrils.toNat).map
    (frontTendrilCSS sinQ cosQ rand p)) ++
  String.join ((List.range' 1 p.hair.backTendrils.toNat).map
    (backTendrilCSS sinQ cosQ p))

/-- Embeds `generateFeaturesStyles` (css-generator.ts lines 226-297). -/
def generateFeaturesStyles (p : ArtworkParameters) : String :=
"
.eye \x7b
  background-image: radial-gradient(ellipse at 42% 43%, " ++
    p.palette.skin.shadow ++ "50 23%, transparent 56%);
  transform: rotate(-11deg) scale(" ++ ratStr p.features.eyeSize ++ ");
  width: 24%;
  height: 30%;
  left: 4%;
  top: 36%;
\x7d

.iris \x7b
  width: 51%;
  height: 100%;
  left: 0;
  top: 12%;
  border-radius: 0 40% 40% 0;
  background-color: " ++ p.palette.eyes.iris ++ ";
\x7d

.eyeball \x7b
  width: 49%;
  height: 20%;
  top: 41%;
  left: 33%;
  overflow: hidden;
  background-color: " ++ p.palette.eyes.sclera ++ ";
  border-radius: 0 0 90% 10% / 0 0 81% 87%;
\x7d

.nose \x7b
  width: " ++ ratStr (18 * p.features.noseSize) ++ "%;
  height: " ++ ratStr (20 * p.features.noseSize) ++ "%;
  transform: rotate(22deg);
  background-image:
    linear-gradient(163deg, " ++ p.palette.skin.midtone ++ " 19%, transparent 23%);
  box-shadow:
    inset 6px -5px 5px -3px " ++ p.palette.skin.highlight ++ ",
    inset 0px 9px 12px -5px " ++ p.palette.skin.shadow ++ ";
  border-radius: 0% 90% 80% 15% / 0% 9% 56% 15%;
  top: 55%;
  left: -3.5%;
\x7d

.toplip \x7b
  border-radius: 20% 10% 90% 20% / 30% 0 98% 70%;
  background-color: " ++ p.palette.lips.upper ++ ";
  box-shadow:
    inset 5px 0px 2px -2px " ++ p.palette.lips.shine ++ ",
    inset -2px -4px 8px -1px " ++ p.palette.skin.shadow ++ ";
  width: " ++ ratStr (15 * p.features.lipFullness) ++ "%;
  height: " ++ ratStr (4 * p.features.lipFullness) ++ "%;
  transform: rotate(25deg);
  bottom: 18%;
  left: 3%;
\x7d

.bottomlip \x7b
  border-radius: 20% 10% 47% 50% / 30% 0 98% 70%;
  background-color: " ++ p.palette.lips.lower ++ ";
  box-shadow:
    inset 3px 1px 2px 1px " ++ p.palette.lips.shine ++ ",
    inset 5px 1px 11px 4px " ++ p.palette.skin.shadow ++ ";
  width: " ++ ratStr (11 * p.features.lipFullness) ++ "%;
  height: " ++ ratStr (8 * p.features.lipFullness) ++ "%;
  transform: rotate(7deg);
  bottom: 11%;
  left: 5%;
\x7d

"

/-- Embeds `generateLightingStyles` (css-generator.ts lines 299-330). -/
def generateLightingStyles (p : ArtworkParameters) : String :=
"
.cheekshine \x7b
  transform: rotate(-48deg);
  width: 24%;
  box-shadow:
    0 0 43px 17px " ++ p.palette.ambient.cheekShine ++ ",
    0 0 13px 2px " ++ p.palette.ambient.cheekShine ++ "54;
  left: 22%;
  top: 55%;
  opacity: " ++ ratStr p.lighting.intensity ++ ";
\x7d

.foreheadshine \x7b
  transform: rotate(13deg);
  box-shadow: -27px 0 22px 3px " ++ p.palette.ambient.foreheadShine ++ ";
  top: 19%;
  height: 22%;
  left: 34%;
  opacity: " ++ ratStr p.lighting.intensity ++ ";
\x7d

.cheekbone \x7b
  transform: rotate(-32deg);
  width: 31%;
  box-shadow: 0 0 40px 37px " ++ p.palette.skin.shadow ++ "72;
  left: 27%;
  top: 59%;
\x7d

"

/-- Embeds `generateCSS` (css-generator.ts lines 11-33). -/
def generateCSS (sinQ cosQ rand : ℕ → ℚ) (p : ArtworkParameters) : String :=
  "/* CSS Art Generator - Generated Artwork */\n\n" ++
  generateBaseStyles ++
  generateCanvasStyles p ++
  generateHeadStyles p ++
  generateHairStyles sinQ cosQ rand p ++
  generateFeaturesStyles p ++
  generateLightingStyles p

/-- Embeds `generateHairHTML` (css-generator.ts lines 389-395); the `className`
parameter is accepted and unused, as in the source. -/
def generateHairHTML (_className : String) (count : ℤ) : String :=
  String.join ((List.range' 1 count.toNat).map
    (fun i =>
      "                <div class=\"tendril tendril-" ++ toString i ++
        "\"></div>\n"))

/-- Embeds `generateHTML` (css-generator.ts lines 335-387). -/
def generateHTML (p : ArtworkParameters) (css : String) : String :=
"<!DOCTYPE html>
<html lang=\"en\">
<head>
    <meta charset=\"UTF-8\">
    <meta name=\"viewport\" content=\"width=device-width, initial-scale=1.0\">
    <title>CSS Art - Generated Portrait</title>
    <style>
" ++ css ++ "
    </style>
</head>
<body>
    <div class=\"paper\">
        <div class=\"container\">
            <div class=\"head\">
                <div class=\"nose\"></div>
                <div class=\"forehead\"></div>
                <div class=\"cheekbone\"></div>
                <div class=\"cheekshine\"></div>
                <div class=\"foreheadshine\"></div>
                <div class=\"eye\">
                    <div class=\"eyeball\">
                        <div class=\"iris\"></div>
                    </div>
                </div>
                <div class=\"bottomlip\"></div>
                <div class=\"toplip\"></div>
            </div>

            <div class=\"hair back\">
" ++ generateHairHTML ("back") p.hair.backTendrils ++ "\n            </div>

            <div class=\"hair front\">
" ++ generateHairHTML ("front") p.hair.frontTendrils ++ "\n            </div>

            <div class=\"hair highlights\">
" ++ generateHairHTML ("highlight") p.hair.highlightTendrils ++ "\n            </div>
        </div>
    </div>

    <!--
    Generated by CSS Art Generator
    Based on technique by Diana Smith (cyanHarlow)
    https://github.com/cyanharlow/purecss-pink
    -->
</body>
</html>"

/-- A concrete Artwork Parameters record with a single front tendril, used to
evaluate the renderer on two different entropy streams. -/
def demoParams : ArtworkParameters :=
  { canvas :=
      { width := 650, height := 800, backgroundColor := "#1d3557"
        backgroundGradient := "linear-gradient(to right, #1d3557, #a8dadc)" }
    palette :=
      { skin :=
          { base := "#a8dadc", shadow := "#1d3557", highlight := "#48cae4"
            midtone := "#457b9d" }
        hair := { base := "#092141", highlight := "#48cae4", shadow := "#1d3557" }
        eyes := { iris := "#48cae4", sclera := "#c6f8fa", lid := "#a8dadc" }
        lips := { upper := "#3b7193", lower := "#457b9d", shine := "#ade8f4" }
        ambient := { cheekShine := "#5cdef8", foreheadShine := "#ade8f4" } }
    head :=
      { width := "37%", height := "37%", top := "14%", left := "29%"
        borderRadius := "50% 50% 76% 24% / 40% 2% 98% 61%", rotation := 15 }
    hair :=
      { frontTendrils := 1, backTendrils := 1, highlightTendrils := 1
        curliness := 0.5, flowAngle := 5 }
    features := { eyeSize := 1, noseSize := 1, lipFullness := 1 }
    lighting := { intensity := 0.8, angle := 180, shadowLayers := 9 }
    style := { blur := 1.5, contrast := "high", aesthetic := "oil-painting" } }

lemma stringAppendCancelRight {a b c : String} (h : a ++ c = b ++ c) :
    a = b := by
  have hd := congrArg String.data h
  rw [String.data_append, String.data_append] at hd
  exact String.ext (List.append_cancel_right hd)

lemma stringAppendCancelLeft {a b c : String} (h : a ++ b = a ++ c) :
    b = c := by
  have hd := congrArg String.data h
  rw [String.data_append, String.data_append] at hd
  exact String.ext (List.append_cancel_left hd)

/-- C1: rendering is not deterministic — `generateCSS` reads `Math.random()`
for every front tendril's opacity, so two calls on the identical Artwork
Parameters record (and identical `Math.sin`/`Math.cos`) differ byte-wise as
soon as the entropy draws differ: with draw 0 the first front tendril gets
`opacity: 0.60`, with draw 0.5 it gets `opacity: 0.80`.  This contradicts
the documented determinism invariant (and the repository's own
`checkDeterministic` claim that the same parameters always produce identical
output).  `generateHTML`, by contrast, draws no entropy: it is a pure
function of the parameters and the css argument in this embedding. -/
theorem claim_C1_css_not_deterministic :
    generateCSS (fun _ => 0) (fun _ => 0) (fun _ => 0) demoParams ≠
      generateCSS (fun _ => 0) (fun _ => 0) (fun _ => (1 : ℚ) / 2)
        demoParams := by
  intro h
  have hx : frontTendrilCSS (fun _ => 0) (fun _ => 0) (fun _ => 0)
      demoParams 1 ≠
      frontTendrilCSS (fun _ => 0) (fun _ => 0) (fun _ => (1 : ℚ) / 2)
        demoParams 1 := by
    with_unfolding_all decide
  apply hx
  have h1 := stringAppendCancelRight (stringAppendCancelRight h)
  have h2 := stringAppendCancelLeft h1
  have h3 := stringAppendCancelLeft (stringAppendCancelRight h2)
  exact stringAppendCancelLeft h3
